import Mathlib

/-!
Shallow embedding of `src/driveuploader.py` (class `Uploader`): the folder
resolution (`find_folder`, `make_folder`), the remote file lookup
(`find_drive_files`) and the upload loop (`upload`).

Modelling decisions, each tied to the source:

* A Google Drive file resource returned by `files().list(...)` is a JSON
  object; we model it as `PyVal.dict`, an association list keyed by `PyKey`
  (Python dict keys can be ints or strings).  Subscripting (`d[k]`) raises
  `KeyError k` when the key is missing, which is essential here: the call
  sites write `file_found[0][...]` although `find_drive_files` returns the
  dict `files[0]` itself (line 150), so the integer subscript `[0]` hits a
  string-keyed dict.
* Remote state is a `DriveState`: folders, files, and a counter used to
  mint server-assigned ids (the real ids are opaque server strings; the
  model only needs them fresh).
* The local filesystem is a list of `LocalFile` records;
  `os.path.getmtime` on a missing path raises `OSError`, modelled as
  `PyErr.osError`, which no handler in `upload` catches.
* Each `print` that ends a task maps to a `TaskOutcome`:
  "File ... uploaded."  -> `created`, "File ... updated." -> `updated`,
  "... last modified after local file ..." -> `skippedNewer`,
  "... same last modified date ..." -> `skippedSameAge`,
  "Properties not defined. Use force upload." -> `skippedNoMetadata`.
* An uncaught Python exception aborts the loop: `upload` returns the state
  reached so far, the outcomes of the tasks completed before the failure,
  and the error.
-/

namespace DriveUploader

/-- A Python dict key: Drive JSON objects use string keys, but the source
subscripts `file_found[0]`, so integer keys must be representable. -/
inductive PyKey where
  | intKey : Int → PyKey
  | strKey : String → PyKey
deriving DecidableEq, Repr

/-- The fragment of Python values the script manipulates when reading a
Drive file resource: ints, strings, and JSON objects (dicts). -/
inductive PyVal where
  | int : Int → PyVal
  | str : String → PyVal
  | dict : List (PyKey × PyVal) → PyVal

/-- Python exceptions that can arise in `Uploader.upload`:
`KeyError` from dict subscripts, `TypeError` from subscripting a non-dict
or `int()` on a non-numeric value, `OSError` from `os.path.getmtime` on a
missing path. -/
inductive PyErr where
  | keyError : PyKey → PyErr
  | typeError : PyErr
  | osError : String → PyErr
deriving DecidableEq, Repr

/-- Python dict subscription `v[k]`: raises `KeyError k` when the key is
absent and `TypeError` when `v` is not a dict. -/
def pySubscript (v : PyVal) (k : PyKey) : Except PyErr PyVal :=
  match v with
  | .dict entries =>
    match entries.find? (fun e => e.1 == k) with
    | some e => .ok e.2
    | none => .error (.keyError k)
  | _ => .error .typeError

/-- Python `int(v)` restricted to the values that occur here. -/
def pyInt (v : PyVal) : Except PyErr Int :=
  match v with
  | .int n => .ok n
  | _ => .error .typeError

/-- A file stored in Drive, as the model keeps it: id, name, parent folder
ids, trashed flag, the custom properties (absent when the file was uploaded
by other means), and content. -/
structure DriveFile where
  id : String
  name : String
  parents : List String
  trashed : Bool
  properties : Option (List (String × Int))
  content : String
deriving DecidableEq, Repr

/-- A Drive folder (mimeType `application/vnd.google-apps.folder`). -/
structure DriveFolder where
  id : String
  name : String
deriving DecidableEq, Repr

/-- Remote Drive state: folders, files, and a counter minting fresh
server-assigned ids. -/
structure DriveState where
  folders : List DriveFolder
  files : List DriveFile
  nextId : Nat
deriving DecidableEq, Repr

/-- Fresh server-assigned id for the `n`-th created object.  Real ids are
arbitrary server strings; the model only needs distinct ones, built by
structural recursion so the kernel can evaluate them. -/
def freshId : Nat → String
  | 0 => "gen"
  | n + 1 => freshId n ++ "x"

/-- The JSON projection of a Drive file that
`files().list(fields="files(id, name, properties)")` returns for one file:
a dict with keys `"id"`, `"name"`, and `"properties"` when the file has
custom properties (the Drive API omits the key otherwise). -/
def fileResource (f : DriveFile) : PyVal :=
  .dict ([(.strKey "id", .str f.id), (.strKey "name", .str f.name)] ++
    (match f.properties with
     | some ps =>
       [(.strKey "properties", .dict (ps.map (fun p => (.strKey p.1, .int p.2))))]
     | none => []))

/-- `Uploader.make_folder`: create a Drive folder with the given name and
return the new state and the folder's id (`folder.get('id')`). -/
def make_folder (st : DriveState) (folder_name : String) : DriveState × String :=
  let fid := freshId st.nextId
  ({ st with
      folders := st.folders ++ [⟨fid, folder_name⟩],
      nextId := st.nextId + 1 },
   fid)

/-- `Uploader.find_folder`: `"root"` is returned as-is (the store's default
top-level container alias, no lookup); otherwise list folders by name and
return the first match's id, creating the folder when none matches. -/
def find_folder (st : DriveState) (drive_folder : String) : DriveState × String :=
  if drive_folder = "root" then (st, drive_folder)
  else
    match st.folders.filter (fun f => f.name == drive_folder) with
    | [] => make_folder st drive_folder
    | f :: _ => (st, f.id)

/-- `Uploader.__init__`'s folder flag handling: a missing or empty
`--folder` flag (falsy in Python) means `"root"`. -/
def driveFolderOf (folder_flag : Option String) : String :=
  match folder_flag with
  | some s => if s = "" then "root" else s
  | none => "root"

/-- `Uploader.find_drive_files`: list non-trashed files named `filename`
whose parents include `folder_id`, and return `files[0] if files else None`
— the first resource dict, not a list. -/
def find_drive_files (st : DriveState) (filename folder_id : String) :
    Option PyVal :=
  match st.files.filter
      (fun f => f.parents.contains folder_id && f.name == filename && !f.trashed) with
  | [] => none
  | f :: _ => some (fileResource f)

/-- A local file visible to `os.path.getmtime` and `MediaFileUpload`. -/
structure LocalFile where
  path : String
  mtime : Int
  content : String
deriving DecidableEq, Repr

/-- `os.path.getmtime(filepath)` wrapped in `int(...)` (line 164): the
epoch-seconds mtime, or `OSError` when the path does not resolve. -/
def getmtime (fs : List LocalFile) (p : String) : Except PyErr Int :=
  match fs.find? (fun f => f.path == p) with
  | some f => .ok f.mtime
  | none => .error (.osError p)

/-- The bytes `MediaFileUpload(filepath)` uploads; only evaluated after
`getmtime` succeeded, so the default is never hit on reachable paths. -/
def readContent (fs : List LocalFile) (p : String) : String :=
  match fs.find? (fun f => f.path == p) with
  | some f => f.content
  | none => ""

/-- Characters of the last path component (everything after the final
`'/'`), by structural recursion so the kernel can evaluate it. -/
def baseNameAux : List Char → List Char → List Char
  | cur, [] => cur.reverse
  | _, '/' :: rest => baseNameAux [] rest
  | cur, c :: rest => baseNameAux (c :: cur) rest

/-- `os.path.split(local_file)[-1]`: the last path component. -/
def baseName (p : String) : String :=
  ⟨baseNameAux [] p.data⟩

/-- Whether a path is absolute (starts with `'/'`). -/
def isAbsolute (p : String) : Bool :=
  match p.data with
  | '/' :: _ => true
  | _ => false

/-- `os.path.join(base, p)` for the shapes used here: an absolute `p`
replaces the base. -/
def pathJoin (base p : String) : String :=
  if isAbsolute p then p else base ++ "/" ++ p

/-- Stand-in for `SCRIPT_DIR` (the directory of the script on the machine
running it). -/
def scriptDir : String := "/script"

/-- `if flags['home_dir']: ... else SCRIPT_DIR` — an absent or empty
(falsy) `--home_dir` means the script's directory. -/
def effectiveBase (home_dir : Option String) : String :=
  match home_dir with
  | some h => if h = "" then scriptDir else h
  | none => scriptDir

/-- The `file_metadata` dict built at lines 165–168 (plus the `parents` key
added at line 199 on the create path). -/
structure FileMeta where
  name : String
  props : List (String × Int)
  parents : Option (List String)
deriving DecidableEq, Repr

/-- One task's reported outcome (see the `print` ↔ outcome map above). -/
inductive TaskOutcome where
  | created
  | updated
  | skippedNewer
  | skippedSameAge
  | skippedNoMetadata
deriving DecidableEq, Repr

/-- `int(file_found[0]['properties']['modified'])` (line 174), exactly as
written: subscript the resource with the int key `0`, then `'properties'`,
then `'modified'`, then convert. -/
def readModified (file_found : PyVal) : Except PyErr Int := do
  let v0 ← pySubscript file_found (.intKey 0)
  let props ← pySubscript v0 (.strKey "properties")
  let m ← pySubscript props (.strKey "modified")
  pyInt m

/-- `file_found[0]['id']` (line 192), exactly as written. -/
def getFileId (file_found : PyVal) : Except PyErr String := do
  let v0 ← pySubscript file_found (.intKey 0)
  let i ← pySubscript v0 (.strKey "id")
  match i with
  | .str s => pure s
  | _ => .error .typeError

/-- `files().update(fileId=..., media_body=media, body=file_metadata)`:
replace the matched file's name, properties and content. -/
def updateFile (st : DriveState) (fid : String) (meta : FileMeta)
    (content : String) : DriveState :=
  { st with
      files := st.files.map (fun f =>
        if f.id == fid then
          { f with name := meta.name, properties := some meta.props,
                   content := content }
        else f) }

/-- `files().create(body=file_metadata, media_body=media)`: add a new file
with a fresh id, the metadata's name, parents and properties, and the
uploaded content. -/
def createFile (st : DriveState) (meta : FileMeta) (content : String) :
    DriveState :=
  { st with
      files := st.files ++
        [⟨freshId st.nextId, meta.name, meta.parents.getD [], false,
          some meta.props, content⟩],
      nextId := st.nextId + 1 }

/-- The configuration `upload` reads from the parsed flags. -/
structure Config where
  home_dir : Option String
  drive_folder : String
deriving DecidableEq, Repr

/-- Lines 189–197: build the media and call `update`.  Evaluating the
`fileId=file_found[0]['id']` argument subscripts the resource dict with the
int key `0`; a raised error is uncaught here. -/
def doUpdate (st : DriveState) (file_found : PyVal) (meta : FileMeta)
    (content : String) : DriveState × Except PyErr TaskOutcome :=
  match getFileId file_found with
  | .error e => (st, .error e)
  | .ok fid => (updateFile st fid meta content, .ok .updated)

/-- One iteration of the `for local_file in self.file_list` loop of
`Uploader.upload` (lines 158–205): returns the state after the iteration
and either the task's outcome or the uncaught exception that ended it. -/
def processFile (cfg : Config) (fs : List LocalFile) (force : Bool)
    (st : DriveState) (local_file : String) :
    DriveState × Except PyErr TaskOutcome :=
  let filename := baseName local_file
  let filepath := pathJoin (effectiveBase cfg.home_dir) local_file
  match getmtime fs filepath with
  | .error e => (st, .error e)
  | .ok file_last_update =>
    let file_metadata : FileMeta := ⟨filename, [("modified", file_last_update)], none⟩
    let st1 := (find_folder st cfg.drive_folder).1
    let folder_id := (find_folder st cfg.drive_folder).2
    match find_drive_files st1 filename folder_id with
    | some file_found =>
      if force then
        doUpdate st1 file_found file_metadata (readContent fs filepath)
      else
        match readModified file_found with
        | .error (.keyError _) => (st1, .ok .skippedNoMetadata)
        | .error e => (st1, .error e)
        | .ok modified =>
          if modified > file_last_update then (st1, .ok .skippedNewer)
          else if modified = file_last_update then (st1, .ok .skippedSameAge)
          else doUpdate st1 file_found file_metadata (readContent fs filepath)
    | none =>
      let meta := { file_metadata with parents := some [folder_id] }
      (createFile st1 meta (readContent fs filepath), .ok .created)

/-- The result of a whole `upload` run: the final remote state, the
outcome of each completed task in order, and the uncaught exception, if
one aborted the loop. -/
structure UploadResult where
  state : DriveState
  outcomes : List (String × TaskOutcome)
  err : Option PyErr
deriving DecidableEq, Repr

/-- `Uploader.upload(force)` over the file list: process tasks in order;
an uncaught exception ends the run, leaving later tasks unprocessed. -/
def upload (cfg : Config) (fs : List LocalFile) (force : Bool)
    (st : DriveState) : List String → UploadResult
  | [] => ⟨st, [], none⟩
  | f :: rest =>
    match processFile cfg fs force st f with
    | (st', .error e) => ⟨st', [], some e⟩
    | (st', .ok o) =>
      let r := upload cfg fs force st' rest
      ⟨r.state, (f, o) :: r.outcomes, r.err⟩

/-! ### Helper lemmas -/

/-- `find_folder` touches only the folder list: the remote files are
untouched by folder resolution. -/
theorem find_folder_files (st : DriveState) (d : String) :
    (find_folder st d).1.files = st.files := by
  unfold find_folder make_folder
  split
  · rfl
  · split <;> rfl

/-- The resource dict of any Drive file has only string keys, so
`file_found[0]['properties']['modified']` always raises `KeyError 0`. -/
theorem readModified_fileResource (f : DriveFile) :
    readModified (fileResource f) = .error (.keyError (.intKey 0)) := by
  obtain ⟨i, n, ps, t, props, c⟩ := f
  cases props <;> rfl

/-- Likewise `file_found[0]['id']` always raises `KeyError 0`. -/
theorem getFileId_fileResource (f : DriveFile) :
    getFileId (fileResource f) = .error (.keyError (.intKey 0)) := by
  obtain ⟨i, n, ps, t, props, c⟩ := f
  cases props <;> rfl

/-- A successful `find_drive_files` lookup returns the resource dict of
some stored file. -/
theorem find_drive_files_some {st : DriveState} {n fid : String} {v : PyVal}
    (h : find_drive_files st n fid = some v) :
    ∃ f, f ∈ st.files ∧ v = fileResource f := by
  unfold find_drive_files at h
  split at h
  · exact absurd h (by simp)
  · rename_i f rest hflt
    refine ⟨f, ?_, (Option.some.inj h).symm⟩
    exact (st.files.mem_of_mem_filter (hflt ▸ List.mem_cons_self f rest))

/-- When a matching remote object exists and `force` is false, the
iteration always takes the `except KeyError` branch (the resource dict is
subscripted with the int key 0) and skips the task with the
"Properties not defined" report, leaving the state as folder resolution
left it. -/
theorem processFile_match_noforce (cfg : Config) (fs : List LocalFile)
    (st : DriveState) (lf : String) (m : Int) (v : PyVal)
    (hm : getmtime fs (pathJoin (effectiveBase cfg.home_dir) lf) = .ok m)
    (hv : find_drive_files (find_folder st cfg.drive_folder).1 (baseName lf)
      (find_folder st cfg.drive_folder).2 = some v) :
    processFile cfg fs false st lf =
      ((find_folder st cfg.drive_folder).1, .ok .skippedNoMetadata) := by
  obtain ⟨f, -, rfl⟩ := find_drive_files_some hv
  unfold processFile
  simp only [hm, hv, readModified_fileResource, Bool.false_eq_true, if_false]

/-! ### Concrete fixtures used by the closed theorems and witnesses -/

/-- Flags `--home_dir /home`, no `--folder` (so `"root"`). -/
def cfgA : Config := ⟨some "/home", "root"⟩

/-- One local file `a.txt` with mtime 100. -/
def fsA : List LocalFile := [⟨"/home/a.txt", 100, "hello"⟩]

/-- A remote store holding one matching `a.txt` in the root folder, tagged
with the custom property `modified = m`. -/
def remoteWith (m : Int) : DriveState :=
  ⟨[], [⟨"r1", "a.txt", ["root"], false, some [("modified", m)], "old"⟩], 5⟩

/-- A remote store holding one matching `a.txt` with no custom properties
(uploaded by other means). -/
def remoteNoProps : DriveState :=
  ⟨[], [⟨"r2", "a.txt", ["root"], false, none, "old"⟩], 5⟩

/-- An empty Drive. -/
def emptyDrive : DriveState := ⟨[], [], 0⟩

/-- One local file `b.txt` with mtime 7. -/
def fsB : List LocalFile := [⟨"/home/b.txt", 7, "bee"⟩]

/-! ### Claims -/

/-- C1: the claimed three-way timestamp decision (remote newer → SkippedNewer,
equal → SkippedSameAge, older → Updated) never happens: with a match,
`force` false, and the remote `modified` property present with value 50,
100, or 150 against local mtime 100, the outcome is the
"Properties not defined" skip in all three cases and the remote files are
unchanged — `file_found[0]` raises `KeyError 0` before any comparison. -/
theorem c1_three_way_decision_refuted :
    processFile cfgA fsA false (remoteWith 50) "a.txt"
      = (remoteWith 50, .ok .skippedNoMetadata) ∧
    processFile cfgA fsA false (remoteWith 100) "a.txt"
      = (remoteWith 100, .ok .skippedNoMetadata) ∧
    processFile cfgA fsA false (remoteWith 150) "a.txt"
      = (remoteWith 150, .ok .skippedNoMetadata) :=
  ⟨rfl, rfl, rfl⟩

/-- C2: with `force` true and a matching remote object, the update call's
`fileId=file_found[0]['id']` argument raises an uncaught `KeyError 0`:
the outcome is never Updated, nothing is overwritten, and the exception
aborts the whole batch. -/
theorem c2_force_raises_uncaught_key_error :
    processFile cfgA fsA true (remoteWith 50) "a.txt"
      = (remoteWith 50, .error (.keyError (.intKey 0))) ∧
    upload cfgA fsA true (remoteWith 50) ["a.txt"]
      = ⟨remoteWith 50, [], some (.keyError (.intKey 0))⟩ :=
  ⟨rfl, rfl⟩

/-- C7: running the same batch twice without force yields Created on the
first run, but the second run reports the "Properties not defined" skip,
not SkippedSameAge, even though the first run stored
`modified = 100 =` local mtime: the stored property is never read because
`file_found[0]` raises `KeyError 0`. -/
theorem c7_second_run_skips_as_no_metadata :
    (upload cfgA fsA false emptyDrive ["a.txt"]).outcomes
      = [("a.txt", .created)] ∧
    (upload cfgA fsA false emptyDrive ["a.txt"]).state.files
      = [⟨"gen", "a.txt", ["root"], false, some [("modified", 100)], "hello"⟩] ∧
    (upload cfgA fsA false
        (upload cfgA fsA false emptyDrive ["a.txt"]).state ["a.txt"]).outcomes
      = [("a.txt", .skippedNoMetadata)] :=
  ⟨rfl, rfl, rfl⟩

/-- C8 counterexample: with the batch `["missing.txt", "b.txt"]` where only
`b.txt` exists locally, the run reports no outcome at all (in particular
none for the still-valid `b.txt`), uploads nothing, and ends with the
uncaught `OSError` for the missing path — the remaining tasks are NOT
processed, contradicting the claim. -/
theorem c8_counterexample :
    (upload cfgA fsB false emptyDrive ["missing.txt", "b.txt"]).outcomes = [] ∧
    (upload cfgA fsB false emptyDrive ["missing.txt", "b.txt"]).err
      = some (.osError "/home/missing.txt") ∧
    (upload cfgA fsB false emptyDrive ["missing.txt", "b.txt"]).state.files = [] :=
  ⟨rfl, rfl, rfl⟩

/-- C8 (amended): when a listed local path does not resolve to an existing
file, `os.path.getmtime` raises an uncaught `OSError` that aborts the task
AND the entire remaining batch: no outcome is reported for any task from
the failing one on, the remote state is left exactly as it was, and the
failure surfaces only as the uncaught exception. -/
theorem c8_missing_local_file_aborts_batch (cfg : Config) (fs : List LocalFile)
    (force : Bool) (st : DriveState) (lf : String) (rest : List String)
    (h : fs.find? (fun f => f.path == pathJoin (effectiveBase cfg.home_dir) lf)
      = none) :
    upload cfg fs force st (lf :: rest) =
      ⟨st, [], some (.osError (pathJoin (effectiveBase cfg.home_dir) lf))⟩ := by
  unfold upload processFile getmtime
  simp only [h]

/-- C8 witness: the amended theorem applied to the concrete aborted batch. -/
theorem c8_missing_local_file_aborts_batch_witness :
    (fsB.find?
        (fun f => f.path == pathJoin (effectiveBase cfgA.home_dir) "missing.txt")
      = none) ∧
    upload cfgA fsB false emptyDrive ["missing.txt", "b.txt"] =
      ⟨emptyDrive, [], some (.osError "/home/missing.txt")⟩ :=
  ⟨rfl, c8_missing_local_file_aborts_batch cfgA fsB false emptyDrive
    "missing.txt" ["b.txt"] rfl⟩

/-- C5: whenever a matching remote object is found and `force` is false,
the task is skipped with the "Properties not defined" report and no create
or update is performed — the remote files are untouched — regardless of
whether the matched object carries a `modified` property or what its value
is, because `file_found[0]` raises `KeyError 0` before `'properties'` is
read. -/
theorem c5_match_noforce_never_writes (cfg : Config) (fs : List LocalFile)
    (st : DriveState) (lf : String) (m : Int) (v : PyVal)
    (hm : getmtime fs (pathJoin (effectiveBase cfg.home_dir) lf) = .ok m)
    (hv : find_drive_files (find_folder st cfg.drive_folder).1 (baseName lf)
      (find_folder st cfg.drive_folder).2 = some v) :
    (processFile cfg fs false st lf).2 = .ok .skippedNoMetadata ∧
    (processFile cfg fs false st lf).1.files = st.files := by
  rw [processFile_match_noforce cfg fs st lf m v hm hv]
  exact ⟨rfl, find_folder_files st cfg.drive_folder⟩

/-- C5 witness: the matched object even carries `modified = 50 <` local
mtime 100 (the spec would update), yet the task is skipped untouched. -/
theorem c5_match_noforce_never_writes_witness :
    (getmtime fsA (pathJoin (effectiveBase cfgA.home_dir) "a.txt")
      = .ok 100 ∧
     find_drive_files (find_folder (remoteWith 50) cfgA.drive_folder).1
        (baseName "a.txt") (find_folder (remoteWith 50) cfgA.drive_folder).2
      = some (fileResource
          ⟨"r1", "a.txt", ["root"], false, some [("modified", 50)], "old"⟩)) ∧
    ((processFile cfgA fsA false (remoteWith 50) "a.txt").2
      = .ok .skippedNoMetadata ∧
     (processFile cfgA fsA false (remoteWith 50) "a.txt").1.files
      = (remoteWith 50).files) :=
  ⟨⟨rfl, rfl⟩,
   c5_match_noforce_never_writes cfgA fsA (remoteWith 50) "a.txt" 100 _ rfl rfl⟩

/-- C3: when no matching remote object exists in the target folder, the
outcome is Created regardless of the force flag: a new remote object is
appended carrying the local file's content, the file's name, the resolved
parent folder, and custom properties `modified =` the local mtime; no
timestamp comparison is involved in the result. -/
theorem c3_no_match_creates (cfg : Config) (fs : List LocalFile) (force : Bool)
    (st : DriveState) (lf : String) (m : Int)
    (hm : getmtime fs (pathJoin (effectiveBase cfg.home_dir) lf) = .ok m)
    (hn : find_drive_files (find_folder st cfg.drive_folder).1 (baseName lf)
      (find_folder st cfg.drive_folder).2 = none) :
    (processFile cfg fs force st lf).2 = .ok .created ∧
    (processFile cfg fs force st lf).1.files = st.files ++
      [⟨freshId (find_folder st cfg.drive_folder).1.nextId, baseName lf,
        [(find_folder st cfg.drive_folder).2], false, some [("modified", m)],
        readContent fs (pathJoin (effectiveBase cfg.home_dir) lf)⟩] := by
  unfold processFile
  simp only [hm, hn, createFile, Option.getD_some]
  refine ⟨trivial, ?_⟩
  rw [find_folder_files]

/-- C3 witness: a fresh `a.txt` is created in the root folder with
`modified = 100`, with `force` true to exhibit force-independence. -/
theorem c3_no_match_creates_witness :
    (getmtime fsA (pathJoin (effectiveBase cfgA.home_dir) "a.txt") = .ok 100 ∧
     find_drive_files (find_folder emptyDrive cfgA.drive_folder).1
        (baseName "a.txt") (find_folder emptyDrive cfgA.drive_folder).2
      = none) ∧
    ((processFile cfgA fsA true emptyDrive "a.txt").2 = .ok .created ∧
     (processFile cfgA fsA true emptyDrive "a.txt").1.files
      = emptyDrive.files ++
        [⟨freshId (find_folder emptyDrive cfgA.drive_folder).1.nextId,
          baseName "a.txt", [(find_folder emptyDrive cfgA.drive_folder).2],
          false, some [("modified", 100)],
          readContent fsA (pathJoin (effectiveBase cfgA.home_dir) "a.txt")⟩]) :=
  ⟨⟨rfl, rfl⟩, c3_no_match_creates cfgA fsA true emptyDrive "a.txt" 100 rfl rfl⟩

/-- C4: with a match, `force` false, and no `modified` key among the
matched object's custom properties, the task is skipped with the
"Properties not defined. Use force upload." report and nothing is
written. -/
theorem c4_absent_modified_skips (cfg : Config) (fs : List LocalFile)
    (st : DriveState) (lf : String) (m : Int) (f : DriveFile)
    (hm : getmtime fs (pathJoin (effectiveBase cfg.home_dir) lf) = .ok m)
    (hv : find_drive_files (find_folder st cfg.drive_folder).1 (baseName lf)
      (find_folder st cfg.drive_folder).2 = some (fileResource f))
    (habs : ∀ ps, f.properties = some ps → ∀ p ∈ ps, p.1 ≠ "modified") :
    (processFile cfg fs false st lf).2 = .ok .skippedNoMetadata ∧
    (processFile cfg fs false st lf).1.files = st.files := by
  rw [processFile_match_noforce cfg fs st lf m _ hm hv]
  exact ⟨rfl, find_folder_files st cfg.drive_folder⟩

/-- C4 witness: a matched remote `a.txt` with no custom properties at all
is skipped as no-metadata and left untouched. -/
theorem c4_absent_modified_skips_witness :
    (getmtime fsA (pathJoin (effectiveBase cfgA.home_dir) "a.txt")
      = .ok 100 ∧
     find_drive_files (find_folder remoteNoProps cfgA.drive_folder).1
        (baseName "a.txt") (find_folder remoteNoProps cfgA.drive_folder).2
      = some (fileResource ⟨"r2", "a.txt", ["root"], false, none, "old"⟩)) ∧
    ((processFile cfgA fsA false remoteNoProps "a.txt").2
      = .ok .skippedNoMetadata ∧
     (processFile cfgA fsA false remoteNoProps "a.txt").1.files
      = remoteNoProps.files) :=
  ⟨⟨rfl, rfl⟩,
   c4_absent_modified_skips cfgA fsA remoteNoProps "a.txt" 100
     ⟨"r2", "a.txt", ["root"], false, none, "old"⟩ rfl rfl
     (fun ps h => Option.noConfusion h)⟩

/-- C6: with a match whose `modified` property is strictly newer than the
local mtime and `force` false, no remote write of any kind is performed:
the remote files — in particular the matched object, content and metadata
included — are exactly as before the task. -/
theorem c6_remote_newer_no_write (cfg : Config) (fs : List LocalFile)
    (st : DriveState) (lf : String) (m tr : Int) (f : DriveFile)
    (ps : List (String × Int))
    (hm : getmtime fs (pathJoin (effectiveBase cfg.home_dir) lf) = .ok m)
    (hf : f ∈ st.files)
    (hv : find_drive_files (find_folder st cfg.drive_folder).1 (baseName lf)
      (find_folder st cfg.drive_folder).2 = some (fileResource f))
    (hp : f.properties = some ps)
    (htr : ("modified", tr) ∈ ps)
    (hgt : m < tr) :
    (processFile cfg fs false st lf).1.files = st.files ∧
    f ∈ (processFile cfg fs false st lf).1.files := by
  have h2 := find_folder_files st cfg.drive_folder
  rw [processFile_match_noforce cfg fs st lf m _ hm hv]
  exact ⟨h2, h2.symm ▸ hf⟩

/-- C6 witness: remote `modified = 150 >` local mtime 100; the matched
object survives the task unchanged. -/
theorem c6_remote_newer_no_write_witness :
    (getmtime fsA (pathJoin (effectiveBase cfgA.home_dir) "a.txt")
      = .ok 100 ∧
     (⟨"r1", "a.txt", ["root"], false, some [("modified", 150)], "old"⟩ : DriveFile)
       ∈ (remoteWith 150).files ∧
     find_drive_files (find_folder (remoteWith 150) cfgA.drive_folder).1
        (baseName "a.txt") (find_folder (remoteWith 150) cfgA.drive_folder).2
      = some (fileResource
          ⟨"r1", "a.txt", ["root"], false, some [("modified", 150)], "old"⟩) ∧
     (100 : Int) < 150) ∧
    ((processFile cfgA fsA false (remoteWith 150) "a.txt").1.files
      = (remoteWith 150).files ∧
     (⟨"r1", "a.txt", ["root"], false, some [("modified", 150)], "old"⟩ : DriveFile)
       ∈ (processFile cfgA fsA false (remoteWith 150) "a.txt").1.files) :=
  ⟨⟨rfl, by decide, rfl, by decide⟩,
   c6_remote_newer_no_write cfgA fsA (remoteWith 150) "a.txt" 100 150
     ⟨"r1", "a.txt", ["root"], false, some [("modified", 150)], "old"⟩
     [("modified", 150)] rfl (by decide) rfl rfl (by decide) (by decide)⟩

/-- C9: every remote file present after a task was either already there
before the task, or is the object this task uploaded, and in the latter
case its custom properties are exactly `modified =` the local file's
epoch-seconds mtime read at upload time — both write paths pass
`file_metadata` with `properties = {modified: file_last_update}`. -/
theorem c9_uploads_carry_modified (cfg : Config) (fs : List LocalFile)
    (force : Bool) (st : DriveState) (lf : String) (g : DriveFile)
    (hg : g ∈ (processFile cfg fs force st lf).1.files) :
    g ∈ st.files ∨
    ∃ m, getmtime fs (pathJoin (effectiveBase cfg.home_dir) lf) = .ok m ∧
      g.properties = some [("modified", m)] := by
  rcases hgm : getmtime fs (pathJoin (effectiveBase cfg.home_dir) lf) with e | m
  · unfold processFile at hg
    simp only [hgm] at hg
    exact Or.inl hg
  · rcases hfd : find_drive_files (find_folder st cfg.drive_folder).1
        (baseName lf) (find_folder st cfg.drive_folder).2 with _ | v
    · unfold processFile at hg
      simp only [hgm, hfd, createFile, Option.getD_some] at hg
      rw [find_folder_files] at hg
      rcases List.mem_append.mp hg with h | h
      · exact Or.inl h
      · refine Or.inr ⟨m, rfl, ?_⟩
        rw [List.mem_singleton.mp h]
    · obtain ⟨f, -, rfl⟩ := find_drive_files_some hfd
      unfold processFile at hg
      cases force
      · simp only [hgm, hfd, readModified_fileResource, Bool.false_eq_true,
          if_false] at hg
        rw [find_folder_files] at hg
        exact Or.inl hg
      · simp only [hgm, hfd, doUpdate, getFileId_fileResource, if_true] at hg
        rw [find_folder_files] at hg
        exact Or.inl hg

/-- C9 witness: the file created by a concrete run carries
`modified = 100`, the local mtime. -/
theorem c9_uploads_carry_modified_witness :
    ((⟨"gen", "a.txt", ["root"], false, some [("modified", 100)], "hello"⟩ : DriveFile)
       ∈ (processFile cfgA fsA false emptyDrive "a.txt").1.files) ∧
    ((⟨"gen", "a.txt", ["root"], false, some [("modified", 100)], "hello"⟩ : DriveFile)
       ∈ emptyDrive.files ∨
     ∃ m, getmtime fsA (pathJoin (effectiveBase cfgA.home_dir) "a.txt") = .ok m ∧
       (⟨"gen", "a.txt", ["root"], false, some [("modified", 100)], "hello"⟩ : DriveFile).properties
         = some [("modified", m)]) :=
  ⟨by decide,
   c9_uploads_carry_modified cfgA fsA false emptyDrive "a.txt" _ (by decide)⟩

/-- C10: folder resolution — an absent, empty, or `"root"` `--folder` flag
maps to `"root"`; resolving `"root"` uses the store's default top-level
container alias unchanged with no lookup or creation; any other name is
looked up among the folders, the first match's id is used with the state
unchanged, and when no folder of that name exists one is created (the
folder list grows by exactly that folder) and its id is used. -/
theorem c10_folder_resolution (st : DriveState) (name : String) :
    (driveFolderOf none = "root" ∧ driveFolderOf (some "") = "root" ∧
     (name ≠ "" → driveFolderOf (some name) = name)) ∧
    find_folder st "root" = (st, "root") ∧
    (name ≠ "root" →
      (∃ f, f ∈ st.folders ∧ f.name = name ∧
        find_folder st name = (st, f.id)) ∨
      ((∀ f ∈ st.folders, f.name ≠ name) ∧
       ∃ f, (find_folder st name).1.folders = st.folders ++ [f] ∧
         f.name = name ∧ (find_folder st name).2 = f.id)) := by
  refine ⟨⟨rfl, rfl, fun h => ?_⟩, rfl, fun h => ?_⟩
  · simp only [driveFolderOf, if_neg h]
  · rcases hflt : st.folders.filter (fun f => f.name == name) with _ | ⟨f, rest⟩
    · have hEq : find_folder st name = make_folder st name := by
        unfold find_folder
        rw [if_neg h, hflt]
      right
      refine ⟨fun f hf => ?_, ⟨freshId st.nextId, name⟩, ?_, rfl, ?_⟩
      · have hp := List.filter_eq_nil_iff.mp hflt f hf
        simpa using hp
      · rw [hEq]; rfl
      · rw [hEq]; rfl
    · left
      have hmem : f ∈ st.folders.filter (fun f => f.name == name) :=
        hflt ▸ List.mem_cons_self f rest
      refine ⟨f, List.mem_of_mem_filter hmem,
        by simpa using List.of_mem_filter hmem, ?_⟩
      unfold find_folder
      rw [if_neg h, hflt]

/-- C10 witness: resolving `"docs"` against a store that already has a
`docs` folder returns that folder's id with the state unchanged. -/
theorem c10_folder_resolution_witness :
    ("docs" : String) ≠ "root" ∧
    ((∃ f, f ∈ (⟨[⟨"f9", "docs"⟩], [], 3⟩ : DriveState).folders ∧
        f.name = "docs" ∧
        find_folder ⟨[⟨"f9", "docs"⟩], [], 3⟩ "docs"
          = (⟨[⟨"f9", "docs"⟩], [], 3⟩, f.id)) ∨
     ((∀ f ∈ (⟨[⟨"f9", "docs"⟩], [], 3⟩ : DriveState).folders, f.name ≠ "docs") ∧
      ∃ f, (find_folder ⟨[⟨"f9", "docs"⟩], [], 3⟩ "docs").1.folders
          = (⟨[⟨"f9", "docs"⟩], [], 3⟩ : DriveState).folders ++ [f] ∧
        f.name = "docs" ∧
        (find_folder ⟨[⟨"f9", "docs"⟩], [], 3⟩ "docs").2 = f.id)) :=
  ⟨by decide,
   (c10_folder_resolution ⟨[⟨"f9", "docs"⟩], [], 3⟩ "docs").2.2 (by decide)⟩

end DriveUploader
